import Mathlib

/-!
# OTP entry widget — shallow embedding

This file embeds the state-machine slice of the two-factor-authentication
widget. The repository ships two full implementations of the widget inside
`src/src/lib/components/OtpInput.svelte`:

* the *controller* variant (the Svelte component holding
  `let inputs = Array(6).fill('')`, `activeInputIndex`, `currentState`,
  `isLoading`, with handlers `handleInput`, `handleKeydown`, `handlePaste`,
  `handleSubmit` and a reactive `$:` block updating the button and resetting
  the error state), embedded in namespace `Ctrl`;
* the *vanilla* variant (the component driving the DOM `digit-display`
  elements directly, with `currentCode`, `isCodeComplete`,
  `handleInput`/`handleKeydown`/`handlePaste`/`handleSubmit`/
  `simulateVerification`/`setState`), embedded in namespace `Van`.

Svelte semantics used by the embedding: a `$:` reactive statement or block
re-runs during the flush that follows any assignment to one of the
variables it reads; the flush happens after the event handler (or async
continuation, or timer callback) finishes, never in the middle of it.
Consequently a handler that reads a reactive variable sees the value
computed at the previous flush (stale read), and every state observed
between events is a flushed state. Each event-level function below is
therefore `flush ∘ rawHandler`, applied only when the raw handler performs
an assignment (a handler that returns before assigning anything does not
trigger a flush).

The asynchronous `handleSubmit` is split at its suspension points into a
start phase (up to the `await`) and a resolution phase (the continuation);
the `setTimeout` that clears the cells 400ms after a failed verification is
a separate timer event. Side-effect intents that live in the DOM in the
source (the shake animation class, the pending clear timer) are tracked as
boolean fields.
-/

set_option maxRecDepth 100000

/-- The `currentState` variable: `'default' | 'success' | 'error'`. -/
inductive TState where
  | default
  | success
  | error
deriving DecidableEq, Repr

/-- The default status message, `'Enter 6-digit code from your two factor
authenticator APP'`. -/
def defaultStatusMsg : String :=
  "Enter 6-digit code from your two factor authenticator APP"

/-- JS `/^\d$/.test(value)`: `value` is exactly one decimal digit. -/
def testSingleDigit (value : String) : Bool :=
  value.length == 1 && value.toList.all Char.isDigit

/-- JS `text.replace(/\D/g, '')`: keep only the decimal digits. -/
def stripNonDigits (text : String) : String :=
  String.mk (text.toList.filter Char.isDigit)

/-- The countdown label ternary,
`digitsLeft === 1 ? '1 digit left' : `${digitsLeft} digits left``. -/
def digitsLeftLabel (digitsLeft : Int) : String :=
  if digitsLeft = 1 then "1 digit left"
  else toString digitsLeft ++ " digits left"

namespace Ctrl

/-- State of the controller variant.  `inputs` is the
`let inputs = Array(6).fill('')` array (each entry `''` or one digit),
`activeInputIndex` the focused cell, and `currentState`, `statusText`,
`isLoading`, `buttonText`, `isButtonDisabled` the remaining component
variables.  `shake` records that `triggerShakeAnimation()` was invoked and
`pendingClear` that the 400ms clear `setTimeout` is scheduled. -/
structure CState where
  inputs : List String
  activeInputIndex : Nat
  currentState : TState
  statusText : String
  isLoading : Bool
  buttonText : String
  isButtonDisabled : Bool
  shake : Bool
  pendingClear : Bool
deriving DecidableEq, Repr

/-- The demo `CORRECT_CODE`. -/
def CORRECT_CODE : String := "123456"

/-- The reactive declaration `$: currentCode = inputs.join('')`. -/
def currentCode (s : CState) : String := String.join s.inputs

/-- The reactive block: recomputes `buttonText`/`isButtonDisabled` from the
number of digits entered and, when `currentState === 'error'` with at least
one digit entered, resets the state to `'default'` and restores the default
status text. -/
def reactiveBlock (s : CState) : CState :=
  let digitsEntered : Int := (currentCode s).length
  let digitsLeft : Int := 6 - digitsEntered
  let s1 :=
    if digitsLeft > 0 then
      { s with isButtonDisabled := true,
               buttonText := digitsLeftLabel digitsLeft }
    else
      { s with isButtonDisabled := false, buttonText := "Verify the code" }
  if s1.currentState = TState.error ∧ digitsEntered > 0 then
    { s1 with currentState := TState.default, statusText := defaultStatusMsg }
  else s1

/-- The markup's `disabled={isButtonDisabled || isLoading}` attribute of the
submit button. -/
def submitButtonDisabled (s : CState) : Bool :=
  s.isButtonDisabled || s.isLoading

/-- `handleInput(e)`: reject unless the input value is a single digit;
otherwise write it into `inputs[index]` and, when `index < 5`, move the
focus to `index + 1`. -/
def handleInput (s : CState) (index : Nat) (value : String) : CState :=
  if testSingleDigit value then
    let s' := { s with inputs := s.inputs.set index value }
    if index < 5 then { s' with activeInputIndex := index + 1 } else s'
  else s

/-- `handleKeydown(e)` for the three handled keys: Backspace deletes in
place when the cell is non-empty, otherwise deletes the previous cell and
steps back; ArrowLeft/ArrowRight move the focus within bounds. -/
def handleKeydown (s : CState) (index : Nat) (key : String) : CState :=
  if key = "Backspace" then
    if s.inputs.getD index "" ≠ "" then
      { s with inputs := s.inputs.set index "" }
    else if index > 0 then
      { s with inputs := s.inputs.set (index - 1) "",
               activeInputIndex := index - 1 }
    else s
  else if key = "ArrowLeft" ∧ index > 0 then
    { s with activeInputIndex := index - 1 }
  else if key = "ArrowRight" ∧ index < 5 then
    { s with activeInputIndex := index + 1 }
  else s

/-- The paste loop `for (let i = 0; i < end - index; i++)
inputs[index + i] = pastedData[i]`, unrolled as a recursion on the number
of iterations. -/
def fillFrom (inputs : List String) (index : Nat) (d : List Char) :
    Nat → List String
  | 0 => inputs
  | k + 1 =>
      (fillFrom inputs index d k).set (index + k)
        (String.singleton (d.getD k ' '))

/-- `handlePaste(e)`: strip non-digits; if nothing remains, return without
touching the state; otherwise overwrite the cells from `index` up to
`end = min(index + pastedData.length, 6)` and focus `min(end, 5)`. -/
def handlePaste (s : CState) (index : Nat) (clipboardText : String) :
    CState :=
  let pastedData := stripNonDigits clipboardText
  if pastedData = "" then s
  else
    let e := min (index + pastedData.length) 6
    { s with inputs := fillFrom s.inputs index pastedData.toList (e - index),
             activeInputIndex := min e 5 }

/-- First phase of `async function handleSubmit()`: the completeness guard
`if (currentCode.length !== 6) return;` followed by `isLoading = true`.
The boolean reports whether a verification call was started (the function
proceeded past the guard to the `await`). -/
def submitStart (s : CState) : CState × Bool :=
  if (currentCode s).length ≠ 6 then (s, false)
  else ({ s with isLoading := true }, true)

/-- Continuation of `handleSubmit` after the 1500ms `await`: compare the
code against `CORRECT_CODE`; on success set `currentState = 'success'` and
the success button text; on failure set `currentState = 'error'`, the
failure button text, trigger the shake, and schedule the 400ms clear.
Either way `isLoading = false` at the end. -/
def submitResolve (s : CState) : CState :=
  if currentCode s = CORRECT_CODE then
    { s with currentState := TState.success,
             buttonText := "Let\x27s go!",
             isLoading := false }
  else
    { s with currentState := TState.error,
             buttonText := "Wrong code!",
             shake := true,
             pendingClear := true,
             isLoading := false }

/-- The body of the 400ms `setTimeout` scheduled on verification failure:
`inputs = Array(6).fill('')`, focus the first input. -/
def clearTimerFire (s : CState) : CState :=
  { s with inputs := List.replicate 6 "",
           activeInputIndex := 0,
           pendingClear := false }

/-- Input event: raw handler followed by the reactive flush (the invalid
branch assigns nothing, so no flush runs). -/
def inputEvent (s : CState) (index : Nat) (value : String) : CState :=
  if testSingleDigit value then reactiveBlock (handleInput s index value)
  else s

/-- Keydown event with flush (the Backspace branch always reassigns
`inputs`, triggering a flush). -/
def keydownEvent (s : CState) (index : Nat) (key : String) : CState :=
  reactiveBlock (handleKeydown s index key)

/-- Paste event: the empty-paste branch returns before any assignment, so
no flush runs; otherwise flush after the handler. -/
def pasteEvent (s : CState) (index : Nat) (clipboardText : String) :
    CState :=
  if stripNonDigits clipboardText = "" then s
  else reactiveBlock (handlePaste s index clipboardText)

/-- Submit-start event: the incomplete branch assigns nothing (no flush);
otherwise flush after `isLoading = true`. -/
def submitStartEvent (s : CState) : CState × Bool :=
  if (currentCode s).length ≠ 6 then (s, false)
  else (reactiveBlock { s with isLoading := true }, true)

/-- Verification-resolution event (async continuation plus flush). -/
def resolveEvent (s : CState) : CState :=
  reactiveBlock (submitResolve s)

/-- The 400ms clear timer event (timer body plus flush). -/
def clearEvent (s : CState) : CState :=
  reactiveBlock (clearTimerFire s)

/-- Initial component state. -/
def init : CState :=
  { inputs := List.replicate 6 ""
    activeInputIndex := 0
    currentState := TState.default
    statusText := defaultStatusMsg
    isLoading := false
    buttonText := ""
    isButtonDisabled := true
    shake := false
    pendingClear := false }

end Ctrl

namespace Van

/-- State of the vanilla variant.  `cells` models the per-container
`digit-display` text contents; `currentCode` is the plain variable set by
`updateCurrentCode()`; `isCodeComplete`, `buttonText`, `isButtonDisabled`
hold the values computed by the reactive statements at the last flush (a
handler reading them between flushes sees these, possibly stale, values);
`pendingSubmit` records a `setTimeout(() => handleSubmit(), 500)` scheduled
by auto-submit; `shake` records `triggerShakeAnimation()`. -/
structure VState where
  cells : List String
  focusIndex : Nat
  currentCode : String
  currentState : TState
  statusText : String
  isLoading : Bool
  buttonText : String
  isButtonDisabled : Bool
  isCodeComplete : Bool
  pendingSubmit : Bool
  shake : Bool
deriving DecidableEq, Repr

/-- The demo `correctCode`. -/
def correctCode : String := "123456"

/-- JS `/^\d{6}$/.test(code)`: exactly six decimal digits. -/
def testSixDigits (code : String) : Bool :=
  code.length == 6 && code.toList.all Char.isDigit

/-- The flush: re-runs the reactive statements
`$: digitsEntered/digitsLeft/isCodeComplete` and the button-state block
(`isLoading` → spinner, `success` → success label, `error` → failure
label, otherwise the digits-left countdown or the ready label). -/
def flush (s : VState) : VState :=
  let digitsEntered : Int := s.currentCode.length
  let digitsLeft : Int := 6 - digitsEntered
  let s := { s with
    isCodeComplete := s.currentCode.length == 6 && testSixDigits s.currentCode }
  if s.isLoading then
    { s with buttonText := "", isButtonDisabled := true }
  else if s.currentState = TState.success then
    { s with buttonText := "Let\x27s go!", isButtonDisabled := false }
  else if s.currentState = TState.error then
    { s with buttonText := "Wrong code!", isButtonDisabled := false }
  else if digitsLeft > 0 then
    { s with isButtonDisabled := true,
             buttonText := digitsLeftLabel digitsLeft }
  else
    { s with isButtonDisabled := false, buttonText := "Verify the code" }

/-- `updateCurrentCode()`: join the `digit-display` text contents. -/
def updateCurrentCode (s : VState) : VState :=
  { s with currentCode := String.join s.cells }

/-- `setState(state, message)`: set `currentState`; a non-empty message
replaces `statusText`.  (The error CSS classes on the containers are
presentation.) -/
def setState (s : VState) (st : TState) (message : String) : VState :=
  let s := { s with currentState := st }
  if message ≠ "" then { s with statusText := message } else s

/-- `handleInput(event, index)`: reject non-single-digit values (the input
element is cleared, no component variable is assigned); otherwise
`animateDigitDrop` writes the digit into the display, `updateCurrentCode`
recomputes the code, the focus advances when `index < 5`, and — reading the
reactive `isCodeComplete` as it stood at the previous flush — auto-submit
is scheduled via `setTimeout(handleSubmit, 500)` when that stale flag is
true. -/
def handleInput (s : VState) (index : Nat) (value : String) : VState :=
  if testSingleDigit value then
    let s := { s with cells := s.cells.set index value }
    let s := updateCurrentCode s
    let s := if index < 5 then { s with focusIndex := index + 1 } else s
    if s.isCodeComplete then { s with pendingSubmit := true } else s
  else s

/-- `handleSubmit()` up to its suspension point: when the (reactive)
`isCodeComplete` is false, `setState('error', 'Please enter all 6 digits')`
and return; otherwise `isLoading = true` and start `simulateVerification()`
(the boolean reports the started call). -/
def handleSubmit (s : VState) : VState × Bool :=
  if !s.isCodeComplete then
    (setState s TState.error "Please enter all 6 digits", false)
  else
    ({ s with isLoading := true }, true)

/-- Continuation of `simulateVerification()` after the 1500ms delay:
`isLoading = false`; then compare `currentCode` with `correctCode` and set
the success or error state (both branches pass the default status message),
shaking on failure.  No cell is cleared on failure in this variant. -/
def submitResolve (s : VState) : VState :=
  let s := { s with isLoading := false }
  if s.currentCode = correctCode then
    setState s TState.success defaultStatusMsg
  else
    { setState s TState.error defaultStatusMsg with shake := true }

/-- Input event: raw handler plus flush (the rejection branch assigns no
component variable, so no flush runs). -/
def inputEvent (s : VState) (index : Nat) (value : String) : VState :=
  if testSingleDigit value then flush (handleInput s index value) else s

/-- Submit event (button click, Enter, or the scheduled auto-submit timer
firing): raw handler plus flush; both branches assign state. -/
def submitEvent (s : VState) : VState × Bool :=
  let r := handleSubmit s
  (flush r.1, r.2)

/-- Verification-resolution event plus flush. -/
def resolveEvent (s : VState) : VState :=
  flush (submitResolve s)

/-- Initial component state (after the initial reactive run). -/
def init : VState :=
  flush
    { cells := List.replicate 6 ""
      focusIndex := 0
      currentCode := ""
      currentState := TState.default
      statusText := defaultStatusMsg
      isLoading := false
      buttonText := "6 digits left"
      isButtonDisabled := true
      isCodeComplete := false
      pendingSubmit := false
      shake := false }

end Van

/-! ## Helper lemmas -/

theorem foldl_append_length (l : List String) (acc : String) :
    (l.foldl (· ++ ·) acc).length = acc.length + (l.map String.length).sum := by
  induction l generalizing acc with
  | nil => simp
  | cons x t ih => simp [List.foldl_cons, ih, String.length_append]; omega

theorem join_length (l : List String) :
    (String.join l).length = (l.map String.length).sum := by
  simpa using foldl_append_length l ""

theorem sum_map_len_set_pos (l : List String) (i : Nat) (a : String)
    (hi : i < l.length) (ha : 0 < a.length) :
    0 < ((l.set i a).map String.length).sum := by
  induction l generalizing i with
  | nil => simp at hi
  | cons x t ih =>
    cases i with
    | zero => simp [List.set_cons_zero, List.map_cons, List.sum_cons]; omega
    | succ n =>
      have := ih n (by simpa using hi)
      rw [List.set_cons_succ, List.map_cons, List.sum_cons]
      omega

theorem getD_set_ne (l : List String) (i j : Nat) (a : String) (h : i ≠ j) :
    (l.set i a).getD j "" = l.getD j "" := by
  simp [List.getD_eq_getElem?_getD, List.getElem?_set_ne h]

theorem getD_set_self (l : List String) (i : Nat) (a : String)
    (h : i < l.length) :
    (l.set i a).getD i "" = a := by
  simp [List.getD_eq_getElem?_getD, List.getElem?_set_self, h]

theorem testSingleDigit_length {v : String} (h : testSingleDigit v = true) :
    v.length = 1 := by
  simp [testSingleDigit] at h
  exact h.1

namespace Ctrl

theorem fillFrom_length (l : List String) (idx : Nat) (d : List Char) :
    ∀ c, (fillFrom l idx d c).length = l.length := by
  intro c
  induction c with
  | zero => rfl
  | succ k ih => simp [fillFrom, ih]

theorem fillFrom_getD_below (l : List String) (idx : Nat) (d : List Char)
    (c : Nat) (j : Nat) (hj : j < idx) :
    (fillFrom l idx d c).getD j "" = l.getD j "" := by
  induction c with
  | zero => rfl
  | succ k ih =>
    rw [fillFrom, getD_set_ne _ _ _ _ (by omega), ih]

theorem fillFrom_getD_at (l : List String) (idx : Nat) (d : List Char)
    (c : Nat) (hc : idx + c ≤ l.length) (i : Nat) (hi : i < c) :
    (fillFrom l idx d c).getD (idx + i) "" = String.singleton (d.getD i ' ') := by
  induction c with
  | zero => omega
  | succ k ih =>
    rw [fillFrom]
    rcases Nat.lt_or_ge i k with h | h
    · rw [getD_set_ne _ _ _ _ (by omega), ih (by omega) h]
    · have hik : i = k := by omega
      subst hik
      exact getD_set_self _ _ _ (by rw [fillFrom_length]; omega)

theorem reactiveBlock_inputs (s : CState) :
    (reactiveBlock s).inputs = s.inputs := by
  simp only [reactiveBlock]
  split <;> split <;> rfl

theorem reactiveBlock_active (s : CState) :
    (reactiveBlock s).activeInputIndex = s.activeInputIndex := by
  simp only [reactiveBlock]
  split <;> split <;> rfl

theorem reactiveBlock_isLoading (s : CState) :
    (reactiveBlock s).isLoading = s.isLoading := by
  simp only [reactiveBlock]
  split <;> split <;> rfl

theorem reactiveBlock_state_of_ne_error (s : CState)
    (h : s.currentState ≠ TState.error) :
    (reactiveBlock s).currentState = s.currentState := by
  simp only [reactiveBlock]
  split <;> split <;>
    first
      | rfl
      | (rename_i hc; exact absurd hc.1 h)

theorem reactiveBlock_state_of_error (s : CState)
    (h : s.currentState = TState.error) (hp : 0 < (currentCode s).length) :
    (reactiveBlock s).currentState = TState.default ∧
    (reactiveBlock s).statusText = defaultStatusMsg := by
  simp only [reactiveBlock]
  split <;> split <;>
    first
      | exact ⟨rfl, rfl⟩
      | (rename_i hc; exact absurd ⟨h, by exact_mod_cast hp⟩ hc)

theorem handleInput_inputs (s : CState) (i : Nat) (v : String)
    (h : testSingleDigit v = true) :
    (handleInput s i v).inputs = s.inputs.set i v := by
  simp only [handleInput, h, if_true]
  split <;> rfl

theorem handleInput_currentState (s : CState) (i : Nat) (v : String) :
    (handleInput s i v).currentState = s.currentState := by
  simp only [handleInput]
  (repeat' split) <;> rfl

theorem handleInput_isLoading (s : CState) (i : Nat) (v : String) :
    (handleInput s i v).isLoading = s.isLoading := by
  simp only [handleInput]
  (repeat' split) <;> rfl

theorem handleKeydown_currentState (s : CState) (i : Nat) (k : String) :
    (handleKeydown s i k).currentState = s.currentState := by
  simp only [handleKeydown]
  (repeat' split) <;> rfl

theorem handlePaste_currentState (s : CState) (i : Nat) (raw : String) :
    (handlePaste s i raw).currentState = s.currentState := by
  simp only [handlePaste]
  (repeat' split) <;> rfl

theorem handlePaste_isLoading (s : CState) (i : Nat) (raw : String) :
    (handlePaste s i raw).isLoading = s.isLoading := by
  simp only [handlePaste]
  (repeat' split) <;> rfl

end Ctrl

namespace Van

theorem flush_cells (s : VState) : (flush s).cells = s.cells := by
  simp only [flush]
  (repeat' split) <;> rfl

theorem flush_focusIndex (s : VState) : (flush s).focusIndex = s.focusIndex := by
  simp only [flush]
  (repeat' split) <;> rfl

theorem flush_currentState (s : VState) :
    (flush s).currentState = s.currentState := by
  simp only [flush]
  (repeat' split) <;> rfl

theorem flush_statusText (s : VState) : (flush s).statusText = s.statusText := by
  simp only [flush]
  (repeat' split) <;> rfl

theorem flush_isLoading (s : VState) : (flush s).isLoading = s.isLoading := by
  simp only [flush]
  (repeat' split) <;> rfl

end Van

/-! ## Concrete scenario states

Reachable states used by the claim theorems, witnesses and
counterexamples, built by running the event functions from the initial
states. -/

/-- Controller state with the six cells holding `1`..`6` (spec example). -/
def exFull : Ctrl.CState :=
  { Ctrl.init with inputs := ["1", "2", "3", "4", "5", "6"] }

/-- Controller state after pasting `111111` (a wrong code) at index 0. -/
def cPasted111 : Ctrl.CState := Ctrl.pasteEvent Ctrl.init 0 "111111"

/-- Controller state mid-verification of the wrong code `111111`. -/
def cVerif111 : Ctrl.CState := (Ctrl.submitStartEvent cPasted111).1

/-- Controller state right after the failed verification resolves (one
event later, flush included). -/
def cFailed : Ctrl.CState := Ctrl.resolveEvent cVerif111

/-- Controller state after pasting the correct code `123456` at index 0. -/
def cPasted123 : Ctrl.CState := Ctrl.pasteEvent Ctrl.init 0 "123456"

/-- Controller state mid-verification of the correct code. -/
def cVerif123 : Ctrl.CState := (Ctrl.submitStartEvent cPasted123).1

/-- Controller state after the successful verification resolves. -/
def cSucc : Ctrl.CState := Ctrl.resolveEvent cVerif123

/-- A controller state in the error lifecycle state with all cells empty
(reachable: submit a wrong code, then clear every cell with Backspace
while the verification is in flight; the resolution then sets `error` and
the flush keeps it because no digit is entered). -/
def cErr : Ctrl.CState :=
  Ctrl.resolveEvent
    (Ctrl.keydownEvent (Ctrl.keydownEvent (Ctrl.keydownEvent
      (Ctrl.keydownEvent (Ctrl.keydownEvent (Ctrl.keydownEvent
        cVerif111 5 "Backspace") 4 "Backspace") 3 "Backspace")
        2 "Backspace") 1 "Backspace") 0 "Backspace")

/-- Controller state with a single digit entered (incomplete code). -/
def cPartial : Ctrl.CState := Ctrl.inputEvent Ctrl.init 0 "1"

/-- Vanilla state after typing the six digits of the correct code one by
one into cells 0..5. -/
def typed6 : Van.VState :=
  Van.inputEvent (Van.inputEvent (Van.inputEvent (Van.inputEvent
    (Van.inputEvent (Van.inputEvent Van.init 0 "1") 1 "2") 2 "3") 3 "4")
    4 "5") 5 "6"

/-- Vanilla state after typing only the first five digits. -/
def typed5 : Van.VState :=
  Van.inputEvent (Van.inputEvent (Van.inputEvent (Van.inputEvent
    (Van.inputEvent Van.init 0 "1") 1 "2") 2 "3") 3 "4") 4 "5"

/-- Vanilla state with three digits entered (incomplete code). -/
def vPart : Van.VState :=
  Van.inputEvent (Van.inputEvent (Van.inputEvent Van.init 0 "1") 1 "2") 2 "3"

example : cErr.currentState = TState.error := by decide

example : cErr.inputs = List.replicate 6 "" := by decide

/-! ## Claims -/

/-- C1: for every raw paste text and start index in `[0,5]`,
`handlePaste(rawText, index)` strips the non-digits to get `d`; when `d`
is empty nothing changes; otherwise `d[i]` is written into
`cell[index+i]` for each offset `i < min(len(d), 6-index)`, every cell
before the start index keeps its value, and the focus moves to
`min(index + len(d), 5)`. -/
theorem claim_C1 (s : Ctrl.CState) (rawText : String) (index : Nat)
    (hlen : s.inputs.length = 6) (hidx : index ≤ 5) :
    (stripNonDigits rawText = "" → Ctrl.handlePaste s index rawText = s) ∧
    (stripNonDigits rawText ≠ "" →
      (∀ i, i < min (stripNonDigits rawText).length (6 - index) →
        (Ctrl.handlePaste s index rawText).inputs.getD (index + i) ""
          = String.singleton ((stripNonDigits rawText).toList.getD i ' ')) ∧
      (∀ j, j < index →
        (Ctrl.handlePaste s index rawText).inputs.getD j ""
          = s.inputs.getD j "") ∧
      (Ctrl.handlePaste s index rawText).activeInputIndex
        = min (index + (stripNonDigits rawText).length) 5) := by
  constructor
  · intro hd
    simp only [Ctrl.handlePaste]
    rw [if_pos hd]
  · intro hd
    refine ⟨?_, ?_, ?_⟩
    · intro i hi
      simp only [Ctrl.handlePaste]
      rw [if_neg hd]
      exact Ctrl.fillFrom_getD_at s.inputs index (stripNonDigits rawText).toList
        (min (index + (stripNonDigits rawText).length) 6 - index)
        (by omega) i (by omega)
    · intro j hj
      simp only [Ctrl.handlePaste]
      rw [if_neg hd]
      exact Ctrl.fillFrom_getD_below s.inputs index
        (stripNonDigits rawText).toList _ j hj
    · simp only [Ctrl.handlePaste]
      rw [if_neg hd]
      show min (min (index + (stripNonDigits rawText).length) 6) 5
        = min (index + (stripNonDigits rawText).length) 5
      omega

/-- C1 witness: the spec's own example, `handlePaste("99", 4)` on cells
`['1','2','3','4','5','6']` yields `['1','2','3','4','9','9']` with the
focus on cell 5. -/
theorem claim_C1_witness :
    ((stripNonDigits "99" = "" → Ctrl.handlePaste exFull 4 "99" = exFull) ∧
     (stripNonDigits "99" ≠ "" →
       (∀ i, i < min (stripNonDigits "99").length (6 - 4) →
         (Ctrl.handlePaste exFull 4 "99").inputs.getD (4 + i) ""
           = String.singleton ((stripNonDigits "99").toList.getD i ' ')) ∧
       (∀ j, j < 4 →
         (Ctrl.handlePaste exFull 4 "99").inputs.getD j ""
           = exFull.inputs.getD j "") ∧
       (Ctrl.handlePaste exFull 4 "99").activeInputIndex
         = min (4 + (stripNonDigits "99").length) 5)) ∧
    (Ctrl.handlePaste exFull 4 "99").inputs = ["1", "2", "3", "4", "9", "9"] :=
  ⟨claim_C1 exFull "99" 4 (by decide) (by decide), by decide⟩

/-- C2: evaluation of the failed-verification path on the complete wrong
code `111111`.  The raw continuation of `handleSubmit` does set the state
to `error`, trigger the shake and schedule the 400ms clear — but the
reactive block that runs in the same flush resets the state to `default`
(six digits are still entered), so the flushed state after the failure
event is already `default` with the cells still full; the 400ms timer then
clears the cells and focuses cell 0 with the state remaining `default`.
The error state therefore does not persist until the delay, contrary to
the claim (and to the block's own comment, `Reset error state on new
input`). -/
theorem claim_C2 :
    cVerif111.isLoading = true ∧
    Ctrl.currentCode cVerif111 = "111111" ∧
    (Ctrl.submitResolve cVerif111).currentState = TState.error ∧
    (Ctrl.submitResolve cVerif111).shake = true ∧
    (Ctrl.submitResolve cVerif111).pendingClear = true ∧
    cFailed.currentState = TState.default ∧
    cFailed.inputs = ["1", "1", "1", "1", "1", "1"] ∧
    (Ctrl.clearEvent cFailed).inputs = List.replicate 6 "" ∧
    (Ctrl.clearEvent cFailed).activeInputIndex = 0 ∧
    (Ctrl.clearEvent cFailed).currentState = TState.default := by
  decide

/-- C3: evaluation of the vanilla variant's auto-submit on the typing
path.  `handleInput` reads the reactive `isCodeComplete` as it stood at
the previous flush, so when the sixth digit is typed the flag is still the
five-digit value `false` and no submit is scheduled — even though after
the event's flush the code is `123456` and `isCodeComplete` is `true`.
When a submit does run (explicitly) on that state, the verification
resolves to success. -/
theorem claim_C3 :
    typed5.isCodeComplete = false ∧
    typed6.currentCode = "123456" ∧
    typed6.isCodeComplete = true ∧
    typed6.pendingSubmit = false ∧
    typed6.currentState = TState.default ∧
    (Van.submitEvent typed6).1.isLoading = true ∧
    (Van.resolveEvent (Van.submitEvent typed6).1).currentState
      = TState.success := by
  decide

/-- C4 counterexample: in the verifying state reached by submitting the
complete code `111111`, a re-entrant `submit()` passes the completeness
guard and starts a second verification call, and both an input event and a
paste event still mutate the cells — the claim's "no-op while Verifying"
is false. -/
theorem claim_C4_cex :
    cVerif111.isLoading = true ∧
    (Ctrl.submitStart cVerif111).2 = true ∧
    (Ctrl.inputEvent cVerif111 0 "9").inputs ≠ cVerif111.inputs ∧
    (Ctrl.pasteEvent cVerif111 0 "99").inputs ≠ cVerif111.inputs ∧
    (Ctrl.pasteEvent cVerif111 0 "99").isLoading = true := by
  decide

/-- C4 (amended): while Verifying the rendered submit button is disabled
(`disabled={isButtonDisabled || isLoading}`), which is the only thing
preventing re-submission through the UI; the controller functions
themselves are unguarded: a direct re-entrant `submit()` with the code
still complete starts another verification call, `setCellDigit` still
writes its digit into the cell, and `handlePaste` still writes the pasted
digits into the cells from the paste index — with the loading flag staying
set throughout. -/
theorem claim_C4 (s : Ctrl.CState) (hload : s.isLoading = true) :
    Ctrl.submitButtonDisabled s = true ∧
    ((Ctrl.currentCode s).length = 6 → (Ctrl.submitStart s).2 = true) ∧
    (∀ i v, testSingleDigit v = true → i < 6 → s.inputs.length = 6 →
      (Ctrl.handleInput s i v).inputs.getD i "" = v ∧
      (Ctrl.handleInput s i v).isLoading = true) ∧
    (∀ i raw, i ≤ 5 → s.inputs.length = 6 → stripNonDigits raw ≠ "" →
      (∀ o, o < min (stripNonDigits raw).length (6 - i) →
        (Ctrl.pasteEvent s i raw).inputs.getD (i + o) ""
          = String.singleton ((stripNonDigits raw).toList.getD o ' ')) ∧
      (Ctrl.pasteEvent s i raw).isLoading = true) := by
  refine ⟨?_, ?_, ?_, ?_⟩
  · simp [Ctrl.submitButtonDisabled, hload]
  · intro h6
    simp [Ctrl.submitStart, h6]
  · intro i v hv hi hlen
    constructor
    · rw [Ctrl.handleInput_inputs s i v hv]
      exact getD_set_self s.inputs i v (by omega)
    · rw [Ctrl.handleInput_isLoading]
      exact hload
  · intro i raw hi hlen hraw
    constructor
    · intro o ho
      rw [Ctrl.pasteEvent, if_neg hraw, Ctrl.reactiveBlock_inputs]
      simp only [Ctrl.handlePaste]
      rw [if_neg hraw]
      exact Ctrl.fillFrom_getD_at s.inputs i (stripNonDigits raw).toList
        (min (i + (stripNonDigits raw).length) 6 - i) (by omega) o (by omega)
    · rw [Ctrl.pasteEvent, if_neg hraw, Ctrl.reactiveBlock_isLoading,
        Ctrl.handlePaste_isLoading]
      exact hload

/-- C4 witness: the amended statement instantiated in the concrete
verifying state. -/
theorem claim_C4_witness :
    Ctrl.submitButtonDisabled cVerif111 = true ∧
    ((Ctrl.currentCode cVerif111).length = 6 →
      (Ctrl.submitStart cVerif111).2 = true) ∧
    (∀ i v, testSingleDigit v = true → i < 6 →
      cVerif111.inputs.length = 6 →
      (Ctrl.handleInput cVerif111 i v).inputs.getD i "" = v ∧
      (Ctrl.handleInput cVerif111 i v).isLoading = true) ∧
    (∀ i raw, i ≤ 5 → cVerif111.inputs.length = 6 →
      stripNonDigits raw ≠ "" →
      (∀ o, o < min (stripNonDigits raw).length (6 - i) →
        (Ctrl.pasteEvent cVerif111 i raw).inputs.getD (i + o) ""
          = String.singleton ((stripNonDigits raw).toList.getD o ' ')) ∧
      (Ctrl.pasteEvent cVerif111 i raw).isLoading = true) :=
  claim_C4 cVerif111 (by decide)

/-- C5 counterexample: in the success state reached by verifying the
correct code, an input event still overwrites a cell, a Backspace event
still clears a cell, a paste event still overwrites cells and moves the
focus, and `submit()` starts a new verification — Success is not a
terminal state for the operations, contrary to the claim. -/
theorem claim_C5_cex :
    cSucc.currentState = TState.success ∧
    (Ctrl.inputEvent cSucc 0 "9").inputs ≠ cSucc.inputs ∧
    (Ctrl.keydownEvent cSucc 0 "Backspace").inputs ≠ cSucc.inputs ∧
    (Ctrl.pasteEvent cSucc 0 "99").inputs ≠ cSucc.inputs ∧
    (Ctrl.pasteEvent cSucc 0 "99").activeInputIndex
      ≠ cSucc.activeInputIndex ∧
    (Ctrl.submitStartEvent cSucc).2 = true := by
  decide

/-- C5 (amended): after Success the lifecycle state itself stays Success
under input, backspace and paste events (no automatic transition back to
Idle exists), but those operations are not rejected: `setCellDigit` still
writes its digit and advances the focus, Backspace still clears a
non-empty cell, `handlePaste` still overwrites the cells from the paste
index and moves the focus, and a `submit()` with the (still-complete) code
starts a new verification call. -/
theorem claim_C5 (s : Ctrl.CState) (hs : s.currentState = TState.success) :
    (∀ i v, (Ctrl.inputEvent s i v).currentState = TState.success) ∧
    (∀ i, (Ctrl.keydownEvent s i "Backspace").currentState
      = TState.success) ∧
    (∀ i raw, (Ctrl.pasteEvent s i raw).currentState = TState.success) ∧
    ((Ctrl.currentCode s).length = 6 → (Ctrl.submitStartEvent s).2 = true) ∧
    (∀ i v, testSingleDigit v = true → i < 6 → s.inputs.length = 6 →
      (Ctrl.inputEvent s i v).inputs.getD i "" = v) ∧
    (∀ i v, testSingleDigit v = true → i < 5 →
      (Ctrl.inputEvent s i v).activeInputIndex = i + 1) ∧
    (∀ i, i ≤ 5 → s.inputs.length = 6 → s.inputs.getD i "" ≠ "" →
      (Ctrl.keydownEvent s i "Backspace").inputs.getD i "" = "") ∧
    (∀ i raw, i ≤ 5 → s.inputs.length = 6 → stripNonDigits raw ≠ "" →
      (∀ o, o < min (stripNonDigits raw).length (6 - i) →
        (Ctrl.pasteEvent s i raw).inputs.getD (i + o) ""
          = String.singleton ((stripNonDigits raw).toList.getD o ' ')) ∧
      (Ctrl.pasteEvent s i raw).activeInputIndex
        = min (i + (stripNonDigits raw).length) 5) := by
  have hne : s.currentState ≠ TState.error := by rw [hs]; intro h; cases h
  refine ⟨?_, ?_, ?_, ?_, ?_, ?_, ?_, ?_⟩
  · intro i v
    by_cases hv : testSingleDigit v = true
    · rw [Ctrl.inputEvent, if_pos hv,
        Ctrl.reactiveBlock_state_of_ne_error _
          (by rw [Ctrl.handleInput_currentState]; exact hne),
        Ctrl.handleInput_currentState]
      exact hs
    · rw [Ctrl.inputEvent, if_neg hv]
      exact hs
  · intro i
    rw [Ctrl.keydownEvent,
      Ctrl.reactiveBlock_state_of_ne_error _
        (by rw [Ctrl.handleKeydown_currentState]; exact hne),
      Ctrl.handleKeydown_currentState]
    exact hs
  · intro i raw
    by_cases hp : stripNonDigits raw = ""
    · rw [Ctrl.pasteEvent, if_pos hp]
      exact hs
    · rw [Ctrl.pasteEvent, if_neg hp,
        Ctrl.reactiveBlock_state_of_ne_error _
          (by rw [Ctrl.handlePaste_currentState]; exact hne),
        Ctrl.handlePaste_currentState]
      exact hs
  · intro h6
    simp [Ctrl.submitStartEvent, h6]
  · intro i v hv hi hlen
    rw [Ctrl.inputEvent, if_pos hv, Ctrl.reactiveBlock_inputs,
      Ctrl.handleInput_inputs s i v hv]
    exact getD_set_self s.inputs i v (by omega)
  · intro i v hv h5
    rw [Ctrl.inputEvent, if_pos hv, Ctrl.reactiveBlock_active]
    simp only [Ctrl.handleInput, hv, if_true]
    rw [if_pos h5]
  · intro i hi hlen hcell
    rw [Ctrl.keydownEvent, Ctrl.reactiveBlock_inputs]
    simp only [Ctrl.handleKeydown]
    rw [if_pos True.intro, if_pos hcell]
    exact getD_set_self s.inputs i "" (by omega)
  · intro i raw hi hlen hraw
    constructor
    · intro o ho
      rw [Ctrl.pasteEvent, if_neg hraw, Ctrl.reactiveBlock_inputs]
      simp only [Ctrl.handlePaste]
      rw [if_neg hraw]
      exact Ctrl.fillFrom_getD_at s.inputs i (stripNonDigits raw).toList
        (min (i + (stripNonDigits raw).length) 6 - i) (by omega) o (by omega)
    · rw [Ctrl.pasteEvent, if_neg hraw, Ctrl.reactiveBlock_active]
      simp only [Ctrl.handlePaste]
      rw [if_neg hraw]
      show min (min (i + (stripNonDigits raw).length) 6) 5
        = min (i + (stripNonDigits raw).length) 5
      omega

/-- C5 witness: the amended statement instantiated in the concrete success
state. -/
theorem claim_C5_witness :
    (∀ i v, (Ctrl.inputEvent cSucc i v).currentState = TState.success) ∧
    (∀ i, (Ctrl.keydownEvent cSucc i "Backspace").currentState
      = TState.success) ∧
    (∀ i raw, (Ctrl.pasteEvent cSucc i raw).currentState
      = TState.success) ∧
    ((Ctrl.currentCode cSucc).length = 6 →
      (Ctrl.submitStartEvent cSucc).2 = true) ∧
    (∀ i v, testSingleDigit v = true → i < 6 →
      cSucc.inputs.length = 6 →
      (Ctrl.inputEvent cSucc i v).inputs.getD i "" = v) ∧
    (∀ i v, testSingleDigit v = true → i < 5 →
      (Ctrl.inputEvent cSucc i v).activeInputIndex = i + 1) ∧
    (∀ i, i ≤ 5 → cSucc.inputs.length = 6 → cSucc.inputs.getD i "" ≠ "" →
      (Ctrl.keydownEvent cSucc i "Backspace").inputs.getD i "" = "") ∧
    (∀ i raw, i ≤ 5 → cSucc.inputs.length = 6 → stripNonDigits raw ≠ "" →
      (∀ o, o < min (stripNonDigits raw).length (6 - i) →
        (Ctrl.pasteEvent cSucc i raw).inputs.getD (i + o) ""
          = String.singleton ((stripNonDigits raw).toList.getD o ' ')) ∧
      (Ctrl.pasteEvent cSucc i raw).activeInputIndex
        = min (i + (stripNonDigits raw).length) 5) :=
  claim_C5 cSucc (by decide)

/-- After a single-digit write into a cell of a 6-cell array the joined
code is non-empty (used for the reactive error reset, which requires
`digitsEntered > 0`). -/
theorem currentCode_pos_after_input (s : Ctrl.CState) (i : Nat) (d : String)
    (hlen : s.inputs.length = 6) (hi : i < 6)
    (hd : testSingleDigit d = true) :
    0 < (Ctrl.currentCode (Ctrl.handleInput s i d)).length := by
  show 0 < (String.join (Ctrl.handleInput s i d).inputs).length
  rw [Ctrl.handleInput_inputs s i d hd, join_length]
  exact sum_map_len_set_pos s.inputs i d (by omega)
    (by rw [testSingleDigit_length hd]; omega)

/-- C6 counterexample: in the vanilla variant, `submit()` with only three
digits entered is not silent — it sets the error state and surfaces the
message `Please enter all 6 digits`. -/
theorem claim_C6_cex :
    vPart.currentState = TState.default ∧
    (Van.submitEvent vPart).1.currentState = TState.error ∧
    (Van.submitEvent vPart).1.statusText = "Please enter all 6 digits" := by
  decide

/-- C6 (amended): with the code incomplete, the controller variant's
`submit()` is a silent no-op (state unchanged, no verification started),
but the vanilla variant's `submit()` surfaces an error: it sets the state
to `error` with the message `Please enter all 6 digits` (cells, focus and
loading flag unchanged, no verification started). -/
theorem claim_C6 :
    (∀ s : Ctrl.CState, (Ctrl.currentCode s).length ≠ 6 →
      Ctrl.submitStartEvent s = (s, false)) ∧
    (∀ v : Van.VState, v.isCodeComplete = false →
      (Van.submitEvent v).2 = false ∧
      (Van.submitEvent v).1.currentState = TState.error ∧
      (Van.submitEvent v).1.statusText = "Please enter all 6 digits" ∧
      (Van.submitEvent v).1.cells = v.cells ∧
      (Van.submitEvent v).1.focusIndex = v.focusIndex ∧
      (Van.submitEvent v).1.isLoading = v.isLoading) := by
  constructor
  · intro s h6
    simp [Ctrl.submitStartEvent, h6]
  · intro v hv
    have hsub : Van.handleSubmit v
        = (Van.setState v TState.error "Please enter all 6 digits", false) := by
      simp [Van.handleSubmit, hv]
    have hset : Van.setState v TState.error "Please enter all 6 digits"
        = { v with currentState := TState.error,
                   statusText := "Please enter all 6 digits" } := by
      simp only [Van.setState]
      rw [if_pos (by decide : ("Please enter all 6 digits" : String) ≠ "")]
    refine ⟨?_, ?_, ?_, ?_, ?_, ?_⟩ <;>
      simp [Van.submitEvent, hsub, hset, Van.flush_cells,
        Van.flush_focusIndex, Van.flush_currentState, Van.flush_statusText,
        Van.flush_isLoading]

/-- C6 witness: the amended statement instantiated in concrete incomplete
states of the two variants. -/
theorem claim_C6_witness :
    Ctrl.submitStartEvent cPartial = (cPartial, false) ∧
    ((Van.submitEvent vPart).2 = false ∧
     (Van.submitEvent vPart).1.currentState = TState.error ∧
     (Van.submitEvent vPart).1.statusText = "Please enter all 6 digits" ∧
     (Van.submitEvent vPart).1.cells = vPart.cells ∧
     (Van.submitEvent vPart).1.focusIndex = vPart.focusIndex ∧
     (Van.submitEvent vPart).1.isLoading = vPart.isLoading) :=
  ⟨claim_C6.1 cPartial (by decide), claim_C6.2 vPart (by decide)⟩

/-- C7: Backspace on a non-empty cell clears that cell in place (all other
cells keep their values, the focus stays); Backspace on an empty cell at
`index > 0` clears the previous cell and moves the focus there
(delete-then-step-back). -/
theorem claim_C7 (s : Ctrl.CState) (index : Nat)
    (hlen : s.inputs.length = 6) (hidx : index ≤ 5)
    (hfoc : s.activeInputIndex = index) :
    (s.inputs.getD index "" ≠ "" →
      (Ctrl.handleKeydown s index "Backspace").inputs.getD index "" = "" ∧
      (∀ j, j ≠ index →
        (Ctrl.handleKeydown s index "Backspace").inputs.getD j ""
          = s.inputs.getD j "") ∧
      (Ctrl.handleKeydown s index "Backspace").activeInputIndex = index) ∧
    (s.inputs.getD index "" = "" → 0 < index →
      (Ctrl.handleKeydown s index "Backspace").inputs.getD (index - 1) ""
        = "" ∧
      (∀ j, j ≠ index - 1 →
        (Ctrl.handleKeydown s index "Backspace").inputs.getD j ""
          = s.inputs.getD j "") ∧
      (Ctrl.handleKeydown s index "Backspace").activeInputIndex
        = index - 1) := by
  constructor
  · intro hne
    simp only [Ctrl.handleKeydown]
    rw [if_pos True.intro, if_pos hne]
    refine ⟨getD_set_self s.inputs index "" (by omega), ?_, hfoc⟩
    intro j hj
    exact getD_set_ne s.inputs index j "" (fun h => hj h.symm)
  · intro he hpos
    simp only [Ctrl.handleKeydown]
    rw [if_pos True.intro, if_neg (fun h => h he), if_pos hpos]
    refine ⟨getD_set_self s.inputs (index - 1) "" (by omega), ?_, rfl⟩
    intro j hj
    exact getD_set_ne s.inputs (index - 1) j "" (fun h => hj h.symm)

/-- C7 witness: Backspace in the concrete full-cells state at index 5
(non-empty branch) — and the same theorem instantiated where the theorem's
hypotheses are discharged concretely. -/
theorem claim_C7_witness :
    (cPasted111.inputs.getD 5 "" ≠ "" →
      (Ctrl.handleKeydown cPasted111 5 "Backspace").inputs.getD 5 "" = "" ∧
      (∀ j, j ≠ 5 →
        (Ctrl.handleKeydown cPasted111 5 "Backspace").inputs.getD j ""
          = cPasted111.inputs.getD j "") ∧
      (Ctrl.handleKeydown cPasted111 5 "Backspace").activeInputIndex = 5) ∧
    (cPasted111.inputs.getD 5 "" = "" → 0 < 5 →
      (Ctrl.handleKeydown cPasted111 5 "Backspace").inputs.getD 4 "" = "" ∧
      (∀ j, j ≠ 4 →
        (Ctrl.handleKeydown cPasted111 5 "Backspace").inputs.getD j ""
          = cPasted111.inputs.getD j "") ∧
      (Ctrl.handleKeydown cPasted111 5 "Backspace").activeInputIndex
        = 4) :=
  claim_C7 cPasted111 5 (by decide) (by decide) (by decide)

/-- C8: a value that is not exactly one decimal digit is silently
rejected (state unchanged, focus not moved); a valid digit is written into
the cell, and the focus advances to `i + 1` when `i < 5` while staying at
5 when `i = 5`. -/
theorem claim_C8 (s : Ctrl.CState) (i : Nat) (v : String)
    (hlen : s.inputs.length = 6) (hidx : i ≤ 5)
    (hfoc : s.activeInputIndex = i) :
    (testSingleDigit v = false → Ctrl.handleInput s i v = s) ∧
    (testSingleDigit v = true →
      (Ctrl.handleInput s i v).inputs.getD i "" = v ∧
      (i < 5 → (Ctrl.handleInput s i v).activeInputIndex = i + 1) ∧
      (i = 5 → (Ctrl.handleInput s i v).activeInputIndex = 5)) := by
  constructor
  · intro hv
    simp [Ctrl.handleInput, hv]
  · intro hv
    refine ⟨?_, ?_, ?_⟩
    · rw [Ctrl.handleInput_inputs s i v hv]
      exact getD_set_self s.inputs i v (by omega)
    · intro h5
      simp only [Ctrl.handleInput, hv, if_true]
      rw [if_pos h5]
    · intro h5
      subst h5
      simp only [Ctrl.handleInput, hv, if_true]
      rw [if_neg (by omega)]
      exact hfoc

/-- C8 witness: the theorem instantiated in the concrete one-digit state
at the focused index 1 with the digit `2`. -/
theorem claim_C8_witness :
    (testSingleDigit "2" = false →
      Ctrl.handleInput cPartial 1 "2" = cPartial) ∧
    (testSingleDigit "2" = true →
      (Ctrl.handleInput cPartial 1 "2").inputs.getD 1 "" = "2" ∧
      (1 < 5 → (Ctrl.handleInput cPartial 1 "2").activeInputIndex = 2) ∧
      (1 = 5 → (Ctrl.handleInput cPartial 1 "2").activeInputIndex = 5)) :=
  claim_C8 cPartial 1 "2" (by decide) (by decide) (by decide)

/-- C9 counterexample: in the reachable error state with empty cells,
entering a valid digit changes the lifecycle state (the reactive block
resets `error` to `default`), refuting the claim that a successful
`setCellDigit` leaves the LifecycleState unchanged. -/
theorem claim_C9_cex :
    cErr.currentState = TState.error ∧
    testSingleDigit "1" = true ∧
    (Ctrl.inputEvent cErr 0 "1").currentState ≠ cErr.currentState := by
  decide

/-- C9 (amended): a successful `setCellDigit(i, d)` modifies only
`cell[i]` among the cells (every other cell keeps its value) and leaves
the loading flag unchanged; the lifecycle state is unchanged unless it was
`error`, in which case the reactive block resets it to `default`. -/
theorem claim_C9 (s : Ctrl.CState) (i : Nat) (d : String)
    (hlen : s.inputs.length = 6) (hi : i < 6)
    (hd : testSingleDigit d = true) :
    (Ctrl.inputEvent s i d).inputs.getD i "" = d ∧
    (∀ j, j ≠ i →
      (Ctrl.inputEvent s i d).inputs.getD j "" = s.inputs.getD j "") ∧
    (Ctrl.inputEvent s i d).isLoading = s.isLoading ∧
    (s.currentState ≠ TState.error →
      (Ctrl.inputEvent s i d).currentState = s.currentState) ∧
    (s.currentState = TState.error →
      (Ctrl.inputEvent s i d).currentState = TState.default) := by
  have hinp : (Ctrl.inputEvent s i d).inputs = s.inputs.set i d := by
    rw [Ctrl.inputEvent, if_pos hd, Ctrl.reactiveBlock_inputs,
      Ctrl.handleInput_inputs s i d hd]
  refine ⟨?_, ?_, ?_, ?_, ?_⟩
  · rw [hinp]
    exact getD_set_self s.inputs i d (by omega)
  · intro j hj
    rw [hinp]
    exact getD_set_ne s.inputs i j d (fun h => hj h.symm)
  · rw [Ctrl.inputEvent, if_pos hd, Ctrl.reactiveBlock_isLoading,
      Ctrl.handleInput_isLoading]
  · intro hne
    rw [Ctrl.inputEvent, if_pos hd,
      Ctrl.reactiveBlock_state_of_ne_error _
        (by rw [Ctrl.handleInput_currentState]; exact hne),
      Ctrl.handleInput_currentState]
  · intro herr
    rw [Ctrl.inputEvent, if_pos hd]
    exact (Ctrl.reactiveBlock_state_of_error _
      (by rw [Ctrl.handleInput_currentState]; exact herr)
      (currentCode_pos_after_input s i d hlen hi hd)).1

/-- C9 witness: the amended statement instantiated in the concrete
one-digit state with digit `3` written into cell 2. -/
theorem claim_C9_witness :
    (Ctrl.inputEvent cPartial 2 "3").inputs.getD 2 "" = "3" ∧
    (∀ j, j ≠ 2 →
      (Ctrl.inputEvent cPartial 2 "3").inputs.getD j ""
        = cPartial.inputs.getD j "") ∧
    (Ctrl.inputEvent cPartial 2 "3").isLoading = cPartial.isLoading ∧
    (cPartial.currentState ≠ TState.error →
      (Ctrl.inputEvent cPartial 2 "3").currentState
        = cPartial.currentState) ∧
    (cPartial.currentState = TState.error →
      (Ctrl.inputEvent cPartial 2 "3").currentState = TState.default) :=
  claim_C9 cPartial 2 "3" (by decide) (by decide) (by decide)

/-- C10: entering any valid digit while the lifecycle state is `error`
immediately returns the state to `default` and restores the default status
message (the reactive block fires in the same flush, without waiting for
any delay). -/
theorem claim_C10 (s : Ctrl.CState) (i : Nat) (d : String)
    (hlen : s.inputs.length = 6) (hi : i < 6)
    (hd : testSingleDigit d = true)
    (herr : s.currentState = TState.error) :
    (Ctrl.inputEvent s i d).currentState = TState.default ∧
    (Ctrl.inputEvent s i d).statusText = defaultStatusMsg := by
  rw [Ctrl.inputEvent, if_pos hd]
  exact Ctrl.reactiveBlock_state_of_error _
    (by rw [Ctrl.handleInput_currentState]; exact herr)
    (currentCode_pos_after_input s i d hlen hi hd)

/-- C10 witness: the theorem instantiated in the reachable empty-cells
error state with digit `1` entered at cell 0. -/
theorem claim_C10_witness :
    (Ctrl.inputEvent cErr 0 "1").currentState = TState.default ∧
    (Ctrl.inputEvent cErr 0 "1").statusText = defaultStatusMsg :=
  claim_C10 cErr 0 "1" (by decide) (by decide) (by decide) (by decide)
